import Mathlib

/-!
Verification of the homework notification bot (src/homework.py, src/exceptions.py).

The Python program is embedded shallowly:
* JSON-decoded Python values become the inductive type `Value`; a Python dict
  is an association list of string keys (Python dict keys are unique, lookup
  takes the first match).
* Raised exceptions become `Except BotError`; the exception classes of
  src/exceptions.py and the built-in `TypeError`/`AttributeError` raised or
  relied on by homework.py are the constructors of `BotError`.
* The network is an oracle: `get_api_answer` receives the outcome of each
  `requests.get` attempt and also reports how many attempts it made.
* The infinite `while True` loop is modelled by its one-iteration body
  `main_iteration` plus `run_loop`, which runs the body over a finite list of
  per-iteration external inputs; each iteration records a trace of events
  (API call made, message sent, sleep reached).
-/

set_option autoImplicit false
set_option linter.unusedVariables false

namespace HomeworkBot

/-- A JSON-decoded Python value. `null` is Python `None`; `dict` is an
association list with (unique) string keys. -/
inductive Value where
  | null : Value
  | bool : Bool → Value
  | int : Int → Value
  | str : String → Value
  | list : List Value → Value
  | dict : List (String × Value) → Value

/-- First-match lookup in an association list (Python dict indexing / `in`). -/
def lookupKey {α : Type} (k : String) : List (String × α) → Option α
  | [] => none
  | (k2, v) :: rest => if k2 = k then some v else lookupKey k rest

/-- Python `value is None`. -/
def Value.isNull : Value → Bool
  | Value.null => true
  | _ => false

/-- Python `isinstance(value, dict)`. -/
def Value.isDict : Value → Bool
  | Value.dict _ => true
  | _ => false

/-- Python `isinstance(value, list)`. -/
def Value.isList : Value → Bool
  | Value.list _ => true
  | _ => false

/-- Key lookup on a value: `some` only when the value is a dict holding the
key. Models Python `key in d` (presence) and `d[key]` (the found value). -/
def Value.getKey? (v : Value) (k : String) : Option Value :=
  match v with
  | Value.dict kvs => lookupKey k kvs
  | _ => none

mutual

/-- Python `str()` as used by the f-strings of homework.py. Scalars follow
Python exactly; containers are rendered recursively (the program only ever
interpolates scalars on the paths the spec describes). -/
def Value.pyStr : Value → String
  | Value.null => "None"
  | Value.bool b => if b then "True" else "False"
  | Value.int n => toString n
  | Value.str s => s
  | Value.list xs => "[" ++ pyStrItems xs ++ "]"
  | Value.dict kvs => "\x7b" ++ pyStrPairs kvs ++ "\x7d"

def pyStrItems : List Value → String
  | [] => ""
  | [v] => Value.pyStr v
  | v :: rest => Value.pyStr v ++ ", " ++ pyStrItems rest

def pyStrPairs : List (String × Value) → String
  | [] => ""
  | [(k, v)] => k ++ ": " ++ Value.pyStr v
  | (k, v) :: rest => k ++ ": " ++ Value.pyStr v ++ ", " ++ pyStrPairs rest

end

/-- The exceptions raised by the program: the four classes of
src/exceptions.py plus the Python built-ins raised by homework.py
(`TypeError` in check_response) or raisable by attribute access
(`AttributeError` when `.get` is called on a non-dict). All extend
`Exception`, so all are caught by the loop's blanket handler. -/
inductive BotError where
  | botTokenException (msg : String)
  | apiError (msg : String)
  | invalidAPIResponseError (msg : String)
  | unknownHomeworkStatusError (msg : String)
  | typeError (msg : String)
  | attributeError (msg : String)
deriving DecidableEq

/-- Python `str(error)` on a one-argument exception: its message. -/
def BotError.message : BotError → String
  | BotError.botTokenException m => m
  | BotError.apiError m => m
  | BotError.invalidAPIResponseError m => m
  | BotError.unknownHomeworkStatusError m => m
  | BotError.typeError m => m
  | BotError.attributeError m => m

/-- Whether the error is the startup configuration error
(`BotTokenException`). -/
def BotError.isConfigError : BotError → Bool
  | BotError.botTokenException _ => true
  | _ => false

def RETRY_PERIOD : Nat := 600

def ENDPOINT : String := "https://practicum.yandex.ru/api/user_api/homework_statuses/"

def HOMEWORK_VERDICTS : List (String × String) :=
  [("approved", "Работа проверена: ревьюеру всё понравилось. Ура!"),
   ("reviewing", "Работа взята на проверку ревьюером."),
   ("rejected", "Работа проверена: у ревьюера есть замечания.")]

/-- The environment at module load: `os.getenv` yields `none` when the
variable is absent. `now` is `int(time.time())` at startup. -/
structure Config where
  PRACTICUM_TOKEN : Option String
  TELEGRAM_TOKEN : Option String
  TELEGRAM_CHAT_ID : Option String
  now : Int

/-- Python falsiness of an optional string: `None` and `''` are falsy. -/
def falsy : Option String → Bool
  | none => true
  | some s => s.isEmpty

/-- The `tokens` dict built inside check_tokens. -/
def tokenTable (c : Config) : List (String × Option String) :=
  [("PRACTICUM_TOKEN", c.PRACTICUM_TOKEN),
   ("TELEGRAM_TOKEN", c.TELEGRAM_TOKEN),
   ("TELEGRAM_CHAT_ID", c.TELEGRAM_CHAT_ID)]

/-- Model of `check_tokens` in homework.py: raises `BotTokenException` when any
environment variable is missing or empty. -/
def check_tokens (c : Config) : Except BotError Unit :=
  let missing_tokens := ((tokenTable c).filter (fun p => falsy p.2)).map Prod.fst
  if missing_tokens.isEmpty then
    Except.ok ()
  else
    Except.error (BotError.botTokenException "Не все переменные окружения доступны.")

/-- Outcome of one underlying `bot.send_message` call, supplied by the
environment. -/
inductive SendResult where
  | ok
  | failure (msg : String)
deriving DecidableEq

/-- The raw Telegram send: raises on failure. -/
def bot_send (outcome : SendResult) : Except String Unit :=
  match outcome with
  | SendResult.ok => Except.ok ()
  | SendResult.failure e => Except.error e

/-- Model of `send_message` in homework.py: wraps the raw send in
try/except Exception, logging either way. Returns the (never-error)
exception channel and the log lines produced. -/
def send_message (message : String) (outcome : SendResult) :
    Except BotError Unit × List String :=
  match bot_send outcome with
  | Except.ok _ =>
      (Except.ok (), ["Сообщение отправлено в чат " ++ message])
  | Except.error err =>
      (Except.ok (), ["Ошибка при отправке сообщения: " ++ err])

/-- Outcome of one `requests.get`: either the transport raises
(`requests.RequestException`) or an HTTP response arrives with a status code
and a JSON-decoded body. -/
inductive TransportResult where
  | exn (msg : String)
  | response (status_code : Nat) (body : Value)

/-- Model of `get_api_answer` in homework.py. The oracle gives the outcome of the
n-th `requests.get` attempt; the function returns the result together with
the number of attempts it made. A non-200 status raises `APIError` (which is
not a `requests.RequestException`, so the surrounding except does not catch
it); a transport exception is re-raised as `APIError`. -/
def get_api_answer (timestamp : Value) (oracle : Nat → TransportResult) :
    Except BotError Value × Nat :=
  match oracle 0 with
  | TransportResult.exn msg =>
      (Except.error (BotError.apiError ("Ошибка при запросе к API: " ++ msg)), 1)
  | TransportResult.response code body =>
      if code ≠ 200 then
        (Except.error (BotError.apiError
          ("Эндпоинт " ++ ENDPOINT ++ " недоступен. Код ответа: " ++ toString code)), 1)
      else
        (Except.ok body, 1)

/-- Model of `check_response` in homework.py: raises `TypeError` when the response is
not a dict, lacks a required key, or has a non-list `homeworks`; otherwise
returns the `homeworks` list. -/
def check_response (response : Value) : Except BotError (List Value) :=
  match response with
  | Value.dict kvs =>
      if (lookupKey "homeworks" kvs).isNone || (lookupKey "current_date" kvs).isNone then
        Except.error (BotError.typeError "В ответе API отсутствуют необходимые ключи")
      else
        match lookupKey "homeworks" kvs with
        | some (Value.list hws) => Except.ok hws
        | _ => Except.error (BotError.typeError "Поле \"homeworks\" должно быть списком")
  | _ => Except.error (BotError.typeError "Ответ API должен быть словарём")

/-- Python `d.get(key)`: `None` when the key is absent; raises
`AttributeError` when the receiver is not a dict. -/
def dictGet (v : Value) (k : String) : Except BotError Value :=
  match v with
  | Value.dict kvs => Except.ok ((lookupKey k kvs).getD Value.null)
  | _ => Except.error (BotError.attributeError "object has no attribute get")

/-- Python `d.get(key, default)` as used on the validated response. -/
def dictGetD (v : Value) (k : String) (default : Value) : Except BotError Value :=
  match v with
  | Value.dict kvs => Except.ok ((lookupKey k kvs).getD default)
  | _ => Except.error (BotError.attributeError "object has no attribute get")

/-- Membership and indexing of `HOMEWORK_VERDICTS` by a dynamic value: only a
string key can be in the dict. `none` models
`homework_status not in HOMEWORK_VERDICTS`. -/
def verdictFor : Value → Option String
  | Value.str st => lookupKey st HOMEWORK_VERDICTS
  | _ => none

/-- Model of `parse_status` in homework.py. -/
def parse_status (homework : Value) : Except BotError String :=
  match dictGet homework "homework_name" with
  | Except.error e => Except.error e
  | Except.ok homework_name =>
    match dictGet homework "status" with
    | Except.error e => Except.error e
    | Except.ok homework_status =>
      if homework_name.isNull || homework_status.isNull then
        Except.error (BotError.invalidAPIResponseError "В ответе отсутствуют необходимые поля")
      else
        match verdictFor homework_status with
        | none =>
            Except.error (BotError.unknownHomeworkStatusError
              ("Неизвестный статус работы: " ++ homework_status.pyStr))
        | some verdict =>
            Except.ok ("Изменился статус проверки работы \"" ++ homework_name.pyStr
              ++ "\". " ++ verdict)

/-- The external behaviour an iteration of the poll loop can observe: the
outcome of this iteration's `requests.get` attempts, and the outcomes of the
underlying Telegram sends (for the status message and for the failure
notice, respectively). -/
structure IterInput where
  transport : Nat → TransportResult
  sendOutcome : SendResult
  errorSendOutcome : SendResult

/-- Observable events of one loop iteration, in order. -/
inductive IterEvent where
  | apiCall (from_date : Value)
  | sent (message : String)
  | slept (period : Nat)

/-- The body of the try-block in `main` (homework.py lines 131-140):
request, validate, optionally format-and-send, then advance the timestamp.
Errors propagate to the blanket handler; the value returned is the new
timestamp together with the send events of the block. -/
def iteration_try (timestamp : Value) (inp : IterInput) :
    Except BotError (Value × List IterEvent) :=
  match (get_api_answer timestamp inp.transport).1 with
  | Except.error e => Except.error e
  | Except.ok response =>
    match check_response response with
    | Except.error e => Except.error e
    | Except.ok homeworks =>
      let eventsE : Except BotError (List IterEvent) :=
        match homeworks with
        | [] => Except.ok []
        | hw :: _ =>
          match parse_status hw with
          | Except.error e => Except.error e
          | Except.ok message =>
            match (send_message message inp.sendOutcome).1 with
            | Except.error e => Except.error e
            | Except.ok _ => Except.ok [IterEvent.sent message]
      match eventsE with
      | Except.error e => Except.error e
      | Except.ok events =>
        match dictGetD response "current_date" timestamp with
        | Except.error e => Except.error e
        | Except.ok newTimestamp => Except.ok (newTimestamp, events)

/-- One full iteration of the `while True` loop: the try-block, the blanket
`except Exception` handler (which logs and best-effort sends a failure
notice), and the unconditional sleep. Returns the timestamp for the next
iteration and the event trace. -/
def main_iteration (timestamp : Value) (inp : IterInput) :
    Value × List IterEvent :=
  match iteration_try timestamp inp with
  | Except.ok r =>
      (r.1, IterEvent.apiCall timestamp :: r.2 ++ [IterEvent.slept RETRY_PERIOD])
  | Except.error e =>
      let message := "Сбой в работе программы: " ++ e.message
      let snd := send_message message inp.errorSendOutcome
      (timestamp,
        [IterEvent.apiCall timestamp, IterEvent.sent message,
         IterEvent.slept RETRY_PERIOD])

/-- The poll loop run over a finite prefix of iteration inputs, threading the
timestamp and concatenating the traces. -/
def run_loop (timestamp : Value) (inputs : List IterInput) :
    Value × List IterEvent :=
  match inputs with
  | [] => (timestamp, [])
  | inp :: rest =>
      let step := main_iteration timestamp inp
      let restRun := run_loop step.1 rest
      (restRun.1, step.2 ++ restRun.2)

/-- Model of `main` in homework.py: check the configuration (a failure here escapes
and terminates the process before any iteration runs), initialise the
timestamp to startup time, then loop. The first component is the exception
that terminated the process, if any. -/
def main (c : Config) (inputs : List IterInput) :
    Option BotError × Value × List IterEvent :=
  match check_tokens c with
  | Except.error e => (some e, Value.int c.now, [])
  | Except.ok _ =>
      let result := run_loop (Value.int c.now) inputs
      (none, result.1, result.2)

/-- The cursors of the API calls occurring in a trace, in order. -/
def apiCalls : List IterEvent → List Value
  | [] => []
  | IterEvent.apiCall t :: rest => t :: apiCalls rest
  | _ :: rest => apiCalls rest

/-! ### Shared helper lemmas -/

theorem apiCalls_append (l1 l2 : List IterEvent) :
    apiCalls (l1 ++ l2) = apiCalls l1 ++ apiCalls l2 := by
  induction l1 with
  | nil => rfl
  | cons e rest ih => cases e <;> simp [apiCalls, ih]

theorem check_response_ok_shape (resp : Value) (hws : List Value)
    (h : check_response resp = Except.ok hws) :
    ∃ kvs, resp = Value.dict kvs ∧
      lookupKey "homeworks" kvs = some (Value.list hws) ∧
      (lookupKey "current_date" kvs).isSome = true := by
  cases resp with
  | dict kvs =>
    refine ⟨kvs, rfl, ?_⟩
    cases hk : lookupKey "homeworks" kvs with
    | none => simp [check_response, hk] at h
    | some v =>
      cases hc : lookupKey "current_date" kvs with
      | none => simp [check_response, hk, hc] at h
      | some cd =>
        cases v with
        | list hws2 =>
          have hh : hws2 = hws := by simpa [check_response, hk, hc] using h
          subst hh
          exact ⟨rfl, rfl⟩
        | null => simp [check_response, hk, hc] at h
        | bool b => simp [check_response, hk, hc] at h
        | int n => simp [check_response, hk, hc] at h
        | str s => simp [check_response, hk, hc] at h
        | dict kvs2 => simp [check_response, hk, hc] at h
  | null => simp [check_response] at h
  | bool b => simp [check_response] at h
  | int n => simp [check_response] at h
  | str s => simp [check_response] at h
  | list xs => simp [check_response] at h

theorem check_tokens_error_shape (c : Config) (e : BotError)
    (h : check_tokens c = Except.error e) :
    e = BotError.botTokenException "Не все переменные окружения доступны." := by
  simp only [check_tokens] at h
  split at h
  · exact absurd h (by simp)
  · injection h with h2
    exact h2.symm

/-! ### C6: the Notifier never propagates -/

/-- C6: for every message text and every failure of the underlying send
operation, `send_message` catches the failure (it logs it) and never
propagates any exception to its caller. -/
theorem send_message_never_raises :
    ∀ (message : String) (outcome : SendResult),
      (send_message message outcome).1 = Except.ok () ∧
      (∀ e, outcome = SendResult.failure e →
        (send_message message outcome).2 =
          ["Ошибка при отправке сообщения: " ++ e]) := by
  intro message outcome
  cases outcome <;> simp [send_message, bot_send]

theorem send_message_never_raises_witness :
    (send_message "hi" (SendResult.failure "boom")).1 = Except.ok () ∧
    (send_message "hi" (SendResult.failure "boom")).2 =
      ["Ошибка при отправке сообщения: boom"] := by
  refine ⟨(send_message_never_raises "hi" (SendResult.failure "boom")).1, ?_⟩
  exact (send_message_never_raises "hi" (SendResult.failure "boom")).2 "boom" rfl

/-! ### C5: the API Client -/

/-- C5: for every cursor input, `get_api_answer` makes exactly one request
attempt; it fails with `APIError` precisely when the transport raises or the
HTTP status differs from 200, and on a 200 response it returns the parsed
body. -/
theorem get_api_answer_contract :
    ∀ (timestamp : Value) (oracle : Nat → TransportResult),
      (get_api_answer timestamp oracle).2 = 1 ∧
      (∀ msg, oracle 0 = TransportResult.exn msg →
        (get_api_answer timestamp oracle).1 =
          Except.error (BotError.apiError ("Ошибка при запросе к API: " ++ msg))) ∧
      (∀ code body, oracle 0 = TransportResult.response code body →
        (code ≠ 200 → (get_api_answer timestamp oracle).1 =
          Except.error (BotError.apiError
            ("Эндпоинт " ++ ENDPOINT ++ " недоступен. Код ответа: " ++ toString code))) ∧
        (code = 200 → (get_api_answer timestamp oracle).1 = Except.ok body)) := by
  intro timestamp oracle
  refine ⟨?_, ?_, ?_⟩
  · unfold get_api_answer
    cases oracle 0 with
    | exn msg => rfl
    | response code body =>
      dsimp only
      split <;> rfl
  · intro msg h
    unfold get_api_answer
    rw [h]
  · intro code body h
    constructor
    · intro hne
      unfold get_api_answer
      rw [h]
      simp [hne]
    · intro heq
      subst heq
      unfold get_api_answer
      rw [h]
      simp

theorem get_api_answer_contract_witness :
    (get_api_answer (Value.int 0)
      (fun _ => TransportResult.response 200 (Value.dict []))).1 =
        Except.ok (Value.dict []) ∧
    (get_api_answer (Value.int 0)
      (fun _ => TransportResult.response 200 (Value.dict []))).2 = 1 := by
  have h := get_api_answer_contract (Value.int 0)
    (fun _ => TransportResult.response 200 (Value.dict []))
  exact ⟨(h.2.2 200 (Value.dict []) rfl).2 rfl, h.1⟩

/-! ### C4: the Response Validator -/

/-- C4: `check_response` fails with the not-a-dict error on any non-mapping
input, with the missing-keys error when `homeworks` or `current_date` is
absent, with the wrong-type error when `homeworks` is not a list, and on
every well-shaped input returns the `homeworks` sequence unchanged. -/
theorem check_response_contract :
    (∀ v : Value, v.isDict = false →
      check_response v =
        Except.error (BotError.typeError "Ответ API должен быть словарём")) ∧
    (∀ kvs : List (String × Value),
      (lookupKey "homeworks" kvs = none ∨ lookupKey "current_date" kvs = none) →
      check_response (Value.dict kvs) =
        Except.error (BotError.typeError "В ответе API отсутствуют необходимые ключи")) ∧
    (∀ (kvs : List (String × Value)) (v : Value),
      lookupKey "homeworks" kvs = some v →
      (lookupKey "current_date" kvs).isSome = true →
      v.isList = false →
      check_response (Value.dict kvs) =
        Except.error (BotError.typeError "Поле \"homeworks\" должно быть списком")) ∧
    (∀ (kvs : List (String × Value)) (hws : List Value),
      lookupKey "homeworks" kvs = some (Value.list hws) →
      (lookupKey "current_date" kvs).isSome = true →
      check_response (Value.dict kvs) = Except.ok hws) := by
  refine ⟨?_, ?_, ?_, ?_⟩
  · intro v h
    cases v <;> first
      | rfl
      | simp [Value.isDict] at h
  · intro kvs h
    rcases h with h | h <;> simp [check_response, h]
  · intro kvs v h1 h2 h3
    obtain ⟨cd, hcd⟩ := Option.isSome_iff_exists.mp h2
    cases v with
    | list xs => simp [Value.isList] at h3
    | null => simp [check_response, h1, hcd]
    | bool b => simp [check_response, h1, hcd]
    | int n => simp [check_response, h1, hcd]
    | str s => simp [check_response, h1, hcd]
    | dict kvs2 => simp [check_response, h1, hcd]
  · intro kvs hws h1 h2
    obtain ⟨cd, hcd⟩ := Option.isSome_iff_exists.mp h2
    simp [check_response, h1, hcd]

theorem check_response_contract_witness :
    check_response (Value.str "oops") =
      Except.error (BotError.typeError "Ответ API должен быть словарём") ∧
    check_response (Value.dict [("homeworks", Value.list [Value.int 1]),
        ("current_date", Value.int 2000)]) = Except.ok [Value.int 1] := by
  constructor
  · exact check_response_contract.1 (Value.str "oops") rfl
  · exact check_response_contract.2.2.2
      [("homeworks", Value.list [Value.int 1]), ("current_date", Value.int 2000)]
      [Value.int 1] rfl rfl

/-! ### C3: the Status Formatter -/

/-- C3: for a record carrying a (non-null) string `homework_name` and a
string `status`, `parse_status` returns exactly the formatted sentence with
the verdict looked up in `HOMEWORK_VERDICTS` when the status is a known key,
fails with the unknown-status error when it is not, and fails with the
invalid-response-shape error when `homework_name` or `status` is missing
(i.e. the Python `.get` yields `None`). -/
theorem parse_status_contract :
    (∀ (hw : Value) (name st : String),
      dictGet hw "homework_name" = Except.ok (Value.str name) →
      dictGet hw "status" = Except.ok (Value.str st) →
      (∀ verdict, lookupKey st HOMEWORK_VERDICTS = some verdict →
        parse_status hw = Except.ok
          ("Изменился статус проверки работы \"" ++ name ++ "\". " ++ verdict)) ∧
      (lookupKey st HOMEWORK_VERDICTS = none →
        parse_status hw = Except.error (BotError.unknownHomeworkStatusError
          ("Неизвестный статус работы: " ++ st)))) ∧
    (∀ hw : Value,
      (dictGet hw "homework_name" = Except.ok Value.null ∨
       dictGet hw "status" = Except.ok Value.null) →
      parse_status hw = Except.error
        (BotError.invalidAPIResponseError "В ответе отсутствуют необходимые поля")) := by
  constructor
  · intro hw name st h1 h2
    constructor
    · intro verdict hv
      unfold parse_status
      simp only [h1, h2]
      simp [Value.isNull, verdictFor, hv, Value.pyStr]
    · intro hv
      unfold parse_status
      simp only [h1, h2]
      simp [Value.isNull, verdictFor, hv, Value.pyStr]
  · intro hw h
    cases hw with
    | dict kvs =>
      simp only [dictGet, Except.ok.injEq] at h
      rcases h with h | h <;>
        simp [parse_status, dictGet, h, Value.isNull]
    | null => simp [dictGet] at h
    | bool b => simp [dictGet] at h
    | int n => simp [dictGet] at h
    | str s => simp [dictGet] at h
    | list xs => simp [dictGet] at h

theorem parse_status_contract_witness :
    parse_status (Value.dict [("homework_name", Value.str "hw1"),
        ("status", Value.str "approved")]) =
      Except.ok "Изменился статус проверки работы \"hw1\". Работа проверена: ревьюеру всё понравилось. Ура!" ∧
    parse_status (Value.dict [("homework_name", Value.str "hw2"),
        ("status", Value.str "archived")]) =
      Except.error (BotError.unknownHomeworkStatusError
        "Неизвестный статус работы: archived") ∧
    parse_status (Value.dict [("status", Value.str "approved")]) =
      Except.error (BotError.invalidAPIResponseError
        "В ответе отсутствуют необходимые поля") := by
  refine ⟨?_, ?_, ?_⟩
  · exact ((parse_status_contract.1
      (Value.dict [("homework_name", Value.str "hw1"), ("status", Value.str "approved")])
      "hw1" "approved" rfl rfl).1
      "Работа проверена: ревьюеру всё понравилось. Ура!" rfl)
  · exact ((parse_status_contract.1
      (Value.dict [("homework_name", Value.str "hw2"), ("status", Value.str "archived")])
      "hw2" "archived" rfl rfl).2 rfl)
  · exact (parse_status_contract.2
      (Value.dict [("status", Value.str "approved")]) (Or.inl rfl))

/-! ### C10: a present-but-null field equals a missing field -/

/-- C10: for a record in which `homework_name` or `status` is present but
bound to `None`, `parse_status` fails with exactly the same
invalid-response-shape error as for a record missing that key. -/
theorem parse_status_null_eq_missing :
    ∀ kvs : List (String × Value),
      ((lookupKey "homework_name" kvs = some Value.null ∨
        lookupKey "status" kvs = some Value.null) →
        parse_status (Value.dict kvs) = Except.error
          (BotError.invalidAPIResponseError "В ответе отсутствуют необходимые поля")) ∧
      ((lookupKey "homework_name" kvs = none ∨
        lookupKey "status" kvs = none) →
        parse_status (Value.dict kvs) = Except.error
          (BotError.invalidAPIResponseError "В ответе отсутствуют необходимые поля")) := by
  intro kvs
  constructor
  · intro h
    rcases h with h | h <;> simp [parse_status, dictGet, h, Value.isNull]
  · intro h
    rcases h with h | h <;> simp [parse_status, dictGet, h, Value.isNull]

theorem parse_status_null_eq_missing_witness :
    parse_status (Value.dict [("homework_name", Value.null),
        ("status", Value.str "approved")]) =
      Except.error (BotError.invalidAPIResponseError
        "В ответе отсутствуют необходимые поля") ∧
    parse_status (Value.dict [("homework_name", Value.str "hw1")]) =
      Except.error (BotError.invalidAPIResponseError
        "В ответе отсутствуют необходимые поля") := by
  constructor
  · exact (parse_status_null_eq_missing
      [("homework_name", Value.null), ("status", Value.str "approved")]).1 (Or.inl rfl)
  · exact (parse_status_null_eq_missing
      [("homework_name", Value.str "hw1")]).2 (Or.inr rfl)

/-! ### Loop lemmas -/

theorem send_message_fst (message : String) (outcome : SendResult) :
    (send_message message outcome).1 = Except.ok () := by
  cases outcome <;> rfl

theorem dictGetD_ok_shape (v : Value) (k : String) (d x : Value)
    (h : dictGetD v k d = Except.ok x) :
    ∃ kvs, v = Value.dict kvs ∧ (lookupKey k kvs).getD d = x := by
  cases v with
  | dict kvs => exact ⟨kvs, rfl, by simpa [dictGetD] using h⟩
  | null => simp [dictGetD] at h
  | bool b => simp [dictGetD] at h
  | int n => simp [dictGetD] at h
  | str s => simp [dictGetD] at h
  | list xs => simp [dictGetD] at h

/-- A successful try-block decomposes into a successful API call, a
successful validation, the cursor update from `current_date`, and either no
send (empty homeworks) or exactly one status send. -/
theorem iteration_try_ok_spec (ts : Value) (inp : IterInput)
    (r : Value × List IterEvent) (h : iteration_try ts inp = Except.ok r) :
    ∃ resp hws, (get_api_answer ts inp.transport).1 = Except.ok resp ∧
      check_response resp = Except.ok hws ∧
      dictGetD resp "current_date" ts = Except.ok r.1 ∧
      (hws = [] → r.2 = []) ∧
      (∀ hw tl, hws = hw :: tl → ∃ m, parse_status hw = Except.ok m ∧
        r.2 = [IterEvent.sent m]) := by
  cases hapi : (get_api_answer ts inp.transport).1 with
  | error e =>
    have hit : iteration_try ts inp = Except.error e := by
      simp [iteration_try, hapi]
    rw [hit] at h
    exact absurd h (by simp)
  | ok resp =>
    cases hcr : check_response resp with
    | error e =>
      have hit : iteration_try ts inp = Except.error e := by
        simp [iteration_try, hapi, hcr]
      rw [hit] at h
      exact absurd h (by simp)
    | ok homeworks =>
      cases homeworks with
      | nil =>
        cases hd : dictGetD resp "current_date" ts with
        | error e =>
          have hit : iteration_try ts inp = Except.error e := by
            simp [iteration_try, hapi, hcr, hd]
          rw [hit] at h
          exact absurd h (by simp)
        | ok newts =>
          have hit : iteration_try ts inp = Except.ok (newts, []) := by
            simp [iteration_try, hapi, hcr, hd]
          rw [hit] at h
          injection h with h2
          subst h2
          exact ⟨resp, [], rfl, hcr, hd, fun _ => rfl,
            fun hw2 tl2 hcon => by simp at hcon⟩
      | cons hw tl =>
        cases hps : parse_status hw with
        | error e =>
          have hit : iteration_try ts inp = Except.error e := by
            simp [iteration_try, hapi, hcr, hps]
          rw [hit] at h
          exact absurd h (by simp)
        | ok message =>
          cases hd : dictGetD resp "current_date" ts with
          | error e =>
            have hit : iteration_try ts inp = Except.error e := by
              simp [iteration_try, hapi, hcr, hps, hd, send_message_fst]
            rw [hit] at h
            exact absurd h (by simp)
          | ok newts =>
            have hit : iteration_try ts inp =
                Except.ok (newts, [IterEvent.sent message]) := by
              simp [iteration_try, hapi, hcr, hps, hd, send_message_fst]
            rw [hit] at h
            injection h with h2
            subst h2
            refine ⟨resp, hw :: tl, rfl, hcr, hd, fun hnil => by simp at hnil,
              fun hw2 tl2 hcon => ?_⟩
            injection hcon with e1 e2
            subst e1
            exact ⟨message, hps, rfl⟩

/-- Every iteration makes exactly one API call, with the cursor it was
entered with. -/
theorem apiCalls_main_iteration (ts : Value) (inp : IterInput) :
    apiCalls (main_iteration ts inp).2 = [ts] := by
  cases hit : iteration_try ts inp with
  | ok r =>
    obtain ⟨resp, hws, _, _, _, hnil, hcons⟩ := iteration_try_ok_spec ts inp r hit
    have h2 : apiCalls r.2 = [] := by
      cases hws with
      | nil => rw [hnil rfl]; rfl
      | cons hw tl =>
        obtain ⟨m, _, hr2⟩ := hcons hw tl rfl
        rw [hr2]
        rfl
    unfold main_iteration
    rw [hit]
    simp [apiCalls, apiCalls_append, h2]
  | error e =>
    unfold main_iteration
    rw [hit]
    rfl

/-! ### C9: errors leave the cursor unchanged -/

/-- C9: when the try-block of an iteration raises, the cursor for the next
iteration equals the cursor this iteration started with; the cursor changes
only in iterations whose try-block (API call, validation, formatting, cursor
read) succeeded. -/
theorem error_iteration_keeps_cursor :
    ∀ (timestamp : Value) (inp : IterInput),
      (∀ e, iteration_try timestamp inp = Except.error e →
        (main_iteration timestamp inp).1 = timestamp) ∧
      ((main_iteration timestamp inp).1 ≠ timestamp →
        ∃ r, iteration_try timestamp inp = Except.ok r ∧
          (main_iteration timestamp inp).1 = r.1) := by
  intro ts inp
  constructor
  · intro e h
    unfold main_iteration
    rw [h]
  · intro hne
    cases hit : iteration_try ts inp with
    | ok r =>
      refine ⟨r, rfl, ?_⟩
      unfold main_iteration
      rw [hit]
    | error e =>
      exfalso
      apply hne
      unfold main_iteration
      rw [hit]

def w9_inp : IterInput :=
  { transport := fun _ => TransportResult.exn "connection reset",
    sendOutcome := SendResult.ok, errorSendOutcome := SendResult.ok }

theorem error_iteration_keeps_cursor_witness :
    (main_iteration (Value.int 7) w9_inp).1 = Value.int 7 := by
  exact (error_iteration_keeps_cursor (Value.int 7) w9_inp).1
    (BotError.apiError "Ошибка при запросе к API: connection reset") rfl

/-! ### C8: empty homeworks sends nothing, cursor still advances -/

/-- C8: in an iteration whose validated homeworks sequence is empty, no
message is sent, `current_date` is present in the response (validation
requires it), and the cursor advances to its value. -/
theorem empty_homeworks_iteration :
    ∀ (timestamp : Value) (inp : IterInput) (resp : Value),
      (get_api_answer timestamp inp.transport).1 = Except.ok resp →
      check_response resp = Except.ok [] →
      (resp.getKey? "current_date").isSome = true ∧
      (∀ T, resp.getKey? "current_date" = some T →
        (main_iteration timestamp inp).1 = T) ∧
      (∀ m, ¬ IterEvent.sent m ∈ (main_iteration timestamp inp).2) := by
  intro ts inp resp hapi hcr
  obtain ⟨kvs, rfl, hk, hc⟩ := check_response_ok_shape resp [] hcr
  have hit : iteration_try ts inp = Except.ok
      ((lookupKey "current_date" kvs).getD ts, []) := by
    simp [iteration_try, hapi, hcr, dictGetD]
  refine ⟨hc, ?_, ?_⟩
  · intro T hT
    simp only [Value.getKey?] at hT
    unfold main_iteration
    rw [hit]
    dsimp only
    rw [hT]
    rfl
  · intro m
    unfold main_iteration
    rw [hit]
    simp [RETRY_PERIOD]

def w8_resp : Value := Value.dict
  [("homeworks", Value.list []), ("current_date", Value.int 2000)]

def w8_inp : IterInput :=
  { transport := fun _ => TransportResult.response 200 w8_resp,
    sendOutcome := SendResult.ok, errorSendOutcome := SendResult.ok }

theorem empty_homeworks_iteration_witness :
    (main_iteration (Value.int 0) w8_inp).1 = Value.int 2000 ∧
    ¬ IterEvent.sent "x" ∈ (main_iteration (Value.int 0) w8_inp).2 := by
  have h := empty_homeworks_iteration (Value.int 0) w8_inp w8_resp rfl rfl
  exact ⟨h.2.1 (Value.int 2000) rfl, h.2.2 "x"⟩

/-! ### C1: loop resilience -/

/-- C1: every loop iteration ends its trace with the fixed-period sleep,
whatever errors its steps raised; after a successful startup check the
process never terminates with an error; and the only error that can
terminate the process is the startup configuration error. -/
theorem loop_resilience :
    (∀ (timestamp : Value) (inp : IterInput), ∃ pre,
      (main_iteration timestamp inp).2 = pre ++ [IterEvent.slept RETRY_PERIOD]) ∧
    (∀ (c : Config) (inputs : List IterInput),
      check_tokens c = Except.ok () → (main c inputs).1 = none) ∧
    (∀ (c : Config) (inputs : List IterInput) (e : BotError),
      (main c inputs).1 = some e → e.isConfigError = true) := by
  refine ⟨?_, ?_, ?_⟩
  · intro ts inp
    cases hit : iteration_try ts inp with
    | ok r =>
      refine ⟨IterEvent.apiCall ts :: r.2, ?_⟩
      unfold main_iteration
      rw [hit]
    | error e =>
      refine ⟨[IterEvent.apiCall ts,
        IterEvent.sent ("Сбой в работе программы: " ++ e.message)], ?_⟩
      unfold main_iteration
      rw [hit]
      rfl
  · intro c inputs h
    unfold main
    rw [h]
  · intro c inputs e h
    unfold main at h
    cases hc : check_tokens c with
    | ok u =>
      rw [hc] at h
      simp at h
    | error e2 =>
      rw [hc] at h
      simp at h
      rw [← h, check_tokens_error_shape c e2 hc]
      rfl

def w1_cfg_ok : Config :=
  { PRACTICUM_TOKEN := some "p", TELEGRAM_TOKEN := some "t",
    TELEGRAM_CHAT_ID := some "c", now := 0 }

def w1_cfg_bad : Config :=
  { PRACTICUM_TOKEN := none, TELEGRAM_TOKEN := some "t",
    TELEGRAM_CHAT_ID := some "c", now := 0 }

theorem loop_resilience_witness :
    (main w1_cfg_ok []).1 = none ∧
    (BotError.botTokenException "Не все переменные окружения доступны.").isConfigError
      = true := by
  constructor
  · exact loop_resilience.2.1 w1_cfg_ok [] rfl
  · exact loop_resilience.2.2 w1_cfg_bad []
      (BotError.botTokenException "Не все переменные окружения доступны.") rfl

/-! ### C2: cursor advancement -/

/-- C2 (amended): in every iteration whose try-block completes without an
error, a response carrying `current_date = T` makes the cursor passed to the
next API call equal `T`, and a response without `current_date` leaves the
cursor unchanged; moreover the next iteration's API call uses exactly the
cursor produced by the previous iteration. (In an iteration that raises, the
cursor is unchanged instead — see the counterexample.) -/
theorem cursor_advancement :
    (∀ (timestamp : Value) (inp : IterInput) (resp : Value)
        (r : Value × List IterEvent),
      (get_api_answer timestamp inp.transport).1 = Except.ok resp →
      iteration_try timestamp inp = Except.ok r →
      (main_iteration timestamp inp).1 = r.1 ∧
      (∀ T, resp.getKey? "current_date" = some T → r.1 = T) ∧
      (resp.getKey? "current_date" = none → r.1 = timestamp)) ∧
    (∀ (timestamp : Value) (inp : IterInput) (rest : List IterInput),
      apiCalls (run_loop timestamp (inp :: rest)).2 =
        timestamp :: apiCalls (run_loop (main_iteration timestamp inp).1 rest).2) := by
  constructor
  · intro ts inp resp r hapi hit
    obtain ⟨resp2, hws, hapi2, hcr2, hd, _, _⟩ := iteration_try_ok_spec ts inp r hit
    have he : resp = resp2 := by
      have := hapi.symm.trans hapi2
      injection this
    subst he
    obtain ⟨kvs, rfl, hx⟩ := dictGetD_ok_shape resp "current_date" ts r.1 hd
    refine ⟨by unfold main_iteration; rw [hit], ?_, ?_⟩
    · intro T hT
      simp only [Value.getKey?] at hT
      rw [hT] at hx
      exact hx.symm
    · intro hT
      simp only [Value.getKey?] at hT
      rw [hT] at hx
      exact hx.symm
  · intro ts inp rest
    have hsplit : (run_loop ts (inp :: rest)).2 =
        (main_iteration ts inp).2 ++ (run_loop (main_iteration ts inp).1 rest).2 := rfl
    rw [hsplit, apiCalls_append, apiCalls_main_iteration]
    rfl

def c2_hw : Value := Value.dict
  [("homework_name", Value.str "hw2"), ("status", Value.str "archived")]

def c2_response : Value := Value.dict
  [("homeworks", Value.list [c2_hw]), ("current_date", Value.int 3000)]

def c2_input : IterInput :=
  { transport := fun _ => TransportResult.response 200 c2_response,
    sendOutcome := SendResult.ok, errorSendOutcome := SendResult.ok }

/-- C2 counterexample: the response carries `current_date = 3000`, yet the
iteration (whose status `"archived"` makes the formatter raise) passes the
unchanged cursor 0, not 3000, to the next API call. -/
theorem cursor_advancement_counterexample :
    c2_response.getKey? "current_date" = some (Value.int 3000) ∧
    (main_iteration (Value.int 0) c2_input).1 = Value.int 0 ∧
    ¬ (main_iteration (Value.int 0) c2_input).1 = Value.int 3000 := by
  refine ⟨rfl, rfl, ?_⟩
  intro h
  rw [show (main_iteration (Value.int 0) c2_input).1 = Value.int 0 from rfl] at h
  simp at h

def w2_hw : Value := Value.dict
  [("homework_name", Value.str "hw1"), ("status", Value.str "approved")]

def w2_resp : Value := Value.dict
  [("homeworks", Value.list [w2_hw]), ("current_date", Value.int 1000)]

def w2_inp : IterInput :=
  { transport := fun _ => TransportResult.response 200 w2_resp,
    sendOutcome := SendResult.ok, errorSendOutcome := SendResult.ok }

theorem cursor_advancement_witness :
    (main_iteration (Value.int 0) w2_inp).1 = Value.int 1000 := by
  have h := cursor_advancement.1 (Value.int 0) w2_inp w2_resp
    (Value.int 1000,
      [IterEvent.sent ("Изменился статус проверки работы \"hw1\". Работа проверена: ревьюеру всё понравилось. Ура!")])
    rfl rfl
  exact h.1.trans (h.2.1 (Value.int 1000) rfl)

/-! ### C7: startup configuration check -/

def c7_cfg : Config :=
  { PRACTICUM_TOKEN := some "p", TELEGRAM_TOKEN := some "t",
    TELEGRAM_CHAT_ID := some "c", now := 0 }

/-- C7 counterexample: the configuration check requires exactly the three
secrets PRACTICUM_TOKEN, TELEGRAM_TOKEN and TELEGRAM_CHAT_ID — there is no
fourth required secret. -/
theorem startup_failure_counterexample :
    ((tokenTable c7_cfg).map Prod.fst) =
      ["PRACTICUM_TOKEN", "TELEGRAM_TOKEN", "TELEGRAM_CHAT_ID"] ∧
    ((tokenTable c7_cfg).map Prod.fst).length ≠ 4 := by
  exact ⟨rfl, by decide⟩

/-- C7 (amended): for each of the three required secrets, if it is empty or
absent then `main` terminates with the fatal configuration error, makes no
API call, and runs no loop iteration. -/
theorem startup_failure :
    ∀ (c : Config) (inputs : List IterInput),
      (falsy c.PRACTICUM_TOKEN = true ∨ falsy c.TELEGRAM_TOKEN = true ∨
       falsy c.TELEGRAM_CHAT_ID = true) →
      (main c inputs).1 = some (BotError.botTokenException
        "Не все переменные окружения доступны.") ∧
      (main c inputs).2.2 = [] ∧
      apiCalls (main c inputs).2.2 = [] := by
  intro c inputs h
  have hne : (((tokenTable c).filter (fun p => falsy p.2)).map Prod.fst).isEmpty
      = false := by
    rcases h with h | h | h
    · cases h2 : falsy c.TELEGRAM_TOKEN <;> cases h3 : falsy c.TELEGRAM_CHAT_ID <;>
        simp [tokenTable, h, h2, h3]
    · cases h1 : falsy c.PRACTICUM_TOKEN <;> cases h3 : falsy c.TELEGRAM_CHAT_ID <;>
        simp [tokenTable, h, h1, h3]
    · cases h1 : falsy c.PRACTICUM_TOKEN <;> cases h2 : falsy c.TELEGRAM_TOKEN <;>
        simp [tokenTable, h, h1, h2]
  have hct : check_tokens c = Except.error (BotError.botTokenException
      "Не все переменные окружения доступны.") := by
    simp only [check_tokens]
    rw [hne]
    rfl
  unfold main
  rw [hct]
  exact ⟨rfl, rfl, rfl⟩

def w7_cfg : Config :=
  { PRACTICUM_TOKEN := some "", TELEGRAM_TOKEN := some "t",
    TELEGRAM_CHAT_ID := some "c", now := 0 }

theorem startup_failure_witness :
    (main w7_cfg []).1 = some (BotError.botTokenException
      "Не все переменные окружения доступны.") ∧
    (main w7_cfg []).2.2 = [] ∧
    apiCalls (main w7_cfg []).2.2 = [] := by
  exact startup_failure w7_cfg [] (Or.inl rfl)

end HomeworkBot
